import Mathlib

/-!
Verification of the session, event-stream, worker and process-supervision
core of the stoq-server repository (`stoqserver/lib/restful.py` and
`stoqserver/tasks.py`), shallowly embedded in Lean.

Times are modelled as integers (seconds); the session map is an association
list mirroring the Python dict pickled to the session file; the event
broadcaster state is the list of per-subscriber FIFO queues.
-/

namespace StoqServer

/-! ## Time and the session store (`restful.py`, `_get_session` / `_login_required`) -/

/-- Timestamps, in seconds (`datetime` differences compared against
`_expire_time`). -/
abbrev Time := Int

/-- `_expire_time = datetime.timedelta(days=1)`, in seconds. -/
def _expire_time : Time := 24 * 60 * 60

/-- One entry of the session dict: `{'date': localnow(), 'user_id': user.id}`. -/
structure SessionData where
  date : Time
  user_id : Nat
deriving Repr, DecidableEq

/-- The pickled session dict, as an association list (keys are the hex session
ids). A Python dict has no duplicate keys; theorems that need that take a
`Nodup` hypothesis on the keys. -/
abbrev SessionMap := List (String × SessionData)

/-- Dict lookup `s.get(session_id, None)`. -/
def lookupSession : SessionMap → String → Option SessionData
  | [], _ => none
  | kv :: rest, k => if kv.1 = k then some kv.2 else lookupSession rest k

/-- The GC sweep inside `_get_session`: delete every entry with
`now - v[date] > _expire_time`, keep the rest. -/
def gcSessions (now : Time) (m : SessionMap) : SessionMap :=
  m.filter (fun kv => decide (now - kv.2.date ≤ _expire_time))

/-- The GC gate `now - (_last_gc or datetime.datetime.min) > _expire_time`:
with `_last_gc = None` the fallback `datetime.min` makes the condition hold
for any realistic `now`. -/
def gcDue (last_gc : Option Time) (now : Time) : Bool :=
  match last_gc with
  | none => true
  | some t => decide (now - t > _expire_time)

/-- The load-and-GC phase of `_get_session` (everything before the `yield`):
returns the in-memory session dict and the new `_last_gc`. -/
def getSessionLoad (file : SessionMap) (last_gc : Option Time) (now : Time) :
    SessionMap × Option Time :=
  if gcDue last_gc now then (gcSessions now file, some now) else (file, last_gc)

/-- `session_data['date'] = localnow()` on the entry for key `k`. -/
def setSessionDate (m : SessionMap) (k : String) (now : Time) : SessionMap :=
  m.map (fun kv => if kv.1 = k then (kv.1, { kv.2 with date := now }) else kv)

/-- The three `abort(401, ...)` reasons of `_login_required`. -/
inductive AuthError where
  /-- No session id provided in header -/
  | noSessionId
  /-- Session does not exist -/
  | noSession
  /-- Session expired -/
  | sessionExpired
deriving Repr, DecidableEq

/-- Outcome of one `_login_required`-wrapped request: the auth result (the
resolved `user_id` on success), the on-disk session file after the request,
and the `_last_gc` global after the request. -/
structure LoginOutcome where
  result : Except AuthError Nat
  disk : SessionMap
  last_gc : Option Time
deriving Repr

/-- The `_login_required` wrapper body, up to the call of the wrapped view:
read the `stoq-session` header; enter `_get_session` (load the file, maybe
GC, setting `_last_gc`); look the id up; reject absent or expired entries
with 401 (the `abort` raised inside the `with` block skips the pickle save
that follows the `yield`, so the on-disk file stays as it was); on success
refresh the date and leave the `with` block, which persists the dict. -/
def _login_required (file : SessionMap) (last_gc : Option Time) (now : Time)
    (header : Option String) : LoginOutcome :=
  match header with
  | none => ⟨.error .noSessionId, file, last_gc⟩
  | some sid =>
    let load := getSessionLoad file last_gc now
    let s := load.1
    match lookupSession s sid with
    | none => ⟨.error .noSession, file, load.2⟩
    | some d =>
      if now - d.date > _expire_time then ⟨.error .sessionExpired, file, load.2⟩
      else ⟨.ok d.user_id, setSessionDate s sid now, load.2⟩

/-! ## JSON encoding and the event stream (`restful.py`, `EventStream`) -/

/-- A JSON value as handled by the event stream: the events this server
emits are dicts (with string keys) and strings, which also covers the
synthetic connection item `json.dumps({})` (a string). -/
inductive JValue where
  | jstr (s : String)
  | jobj (fields : List (String × JValue))
deriving Repr

/-- Escaping of one character inside a JSON string literal, as `json.dumps`
does (the event payloads here contain no control characters). -/
def jsonEscapeChar (c : Char) : String :=
  if c = '"' then "\\\"" else if c = '\\' then "\\\\" else String.singleton c

/-- Escaping of a whole string for a JSON string literal. -/
def jsonEscape (s : String) : String :=
  String.join (s.toList.map jsonEscapeChar)

mutual

/-- `json.dumps` on the values above, with the default separators. -/
def jsonDumps : JValue → String
  | .jstr s => "\"" ++ jsonEscape s ++ "\""
  | .jobj fields => "\x7b" ++ jsonDumpsFields fields ++ "\x7d"

/-- The comma-separated field list of a dumped object. -/
def jsonDumpsFields : List (String × JValue) → String
  | [] => ""
  | [kv] => "\"" ++ jsonEscape kv.1 ++ "\": " ++ jsonDumps kv.2
  | kv :: kv2 :: rest =>
    "\"" ++ jsonEscape kv.1 ++ "\": " ++ jsonDumps kv.2 ++ ", " ++
      jsonDumpsFields (kv2 :: rest)

end

/-- The class attribute `EventStream._streams`: one unbounded FIFO queue per
connected client; the list front is the item the next `stream.get()`
returns. -/
structure EventStreamState where
  _streams : List (List JValue)
deriving Repr

/-- The synthetic item enqueued on connection: `stream.put(json.dumps({}))`
puts the STRING produced by `json.dumps({})` into the fresh queue. -/
def initEvent : JValue := JValue.jstr (jsonDumps (JValue.jobj []))

/-- `EventStream.put(cls, data)`: append `data` to every currently
registered queue. -/
def EventStream.put (st : EventStreamState) (data : JValue) : EventStreamState :=
  ⟨st._streams.map (fun q => q ++ [data])⟩

/-- `EventStream.get(self)`: register a fresh queue holding the synthetic
connection item; returns the new state and the index of the new
subscription among the registered streams. -/
def EventStream.get (st : EventStreamState) : EventStreamState × Nat :=
  (⟨st._streams ++ [[initEvent]]⟩, st._streams.length)

/-- One SSE frame of `EventStream._loop`:
`"data: " + json.dumps(data) + "\n\n"`. -/
def sseFrame (data : JValue) : String := "data: " ++ jsonDumps data ++ "\n\n"

/-- The wire output `_loop` produces for the items a queue delivered. -/
def streamFrames (q : List JValue) : List String := q.map sseFrame

/-- A sequence of publishes, in order. -/
def putMany (st : EventStreamState) (evs : List JValue) : EventStreamState :=
  evs.foldl EventStream.put st

/-! ## The drawer poller (`restful.py`, `DrawerResource.check_drawer_loop`) -/

inductive DrawerEvent where
  | DRAWER_ALERT_OPEN
  | DRAWER_ALERT_CLOSE
deriving Repr, DecidableEq

/-- One iteration of the `while True` body of `check_drawer_loop`, as a
function of the held state `is_open` and the drawer status `sample` that
`DrawerResource._is_open()` reports this tick: the iteration reads the
status once (whichever of the two branch conditions gets to evaluate it;
the other short-circuits on `is_open`), flips the state and publishes an
alert exactly on a change. Returns the new state and the published event. -/
def drawerStep (is_open : Bool) (sample : Bool) : Bool × Option DrawerEvent :=
  if !is_open && sample then (true, some DrawerEvent.DRAWER_ALERT_OPEN)
  else if is_open && !sample then (false, some DrawerEvent.DRAWER_ALERT_CLOSE)
  else (is_open, none)

/-- The loop body run over a finite sequence of per-tick samples. -/
def drawerLoop (is_open : Bool) : List Bool → List (Option DrawerEvent)
  | [] => []
  | s :: rest =>
    (drawerStep is_open s).2 :: drawerLoop (drawerStep is_open s).1 rest

/-- `check_drawer_loop` on a finite status sequence sampled once per tick:
the first sample is consumed by the initial `is_open = _is_open()` before
the loop (publishing nothing), each later sample by one loop iteration; the
entry at position k is what the poller publishes after tick k. -/
def check_drawer_loop : List Bool → List (Option DrawerEvent)
  | [] => []
  | s0 :: rest => none :: drawerLoop s0 rest

/-! ## The change-notification worker (`restful.py`, `DataResource._postgres_listen`) -/

/-- `DataResource.watch_tables`. -/
def watch_tables : List String :=
  ["sellable", "product", "storable", "product_stock_item", "branch_station",
   "branch", "login_user", "sellable_category", "client_category_price",
   "payment_method", "credit_provider"]

/-- One poll window of the `_postgres_listen` loop: drain the notifications
that arrived before the select timeout (their table names), OR-ing the
`message` flag with membership in the watch-list, then publish
`SERVER_UPDATE_DATA` once iff the flag is set, resetting it. Returns the
flag for the next window and how many `SERVER_UPDATE_DATA` events this
window published. -/
def postgresPollWindow (message : Bool) (tables : List String) : Bool × Nat :=
  let m := tables.foldl (fun acc t => acc || watch_tables.contains t) message
  if m then (false, 1) else (m, 0)

/-! ## The webRTC supervisor (`tasks.py`, `start_rtc`) -/

/-- One round of the `while retry` loop of `start_rtc`, as a function of the
exit code of the spawned `start.sh` child: `some w` means the supervisor
logs, sleeps `w` seconds and respawns; `none` means the loop terminates with
no restart. -/
def rtcStep (returncode : Int) : Option Nat :=
  if returncode = 10 then some (10 * 60)
  else if returncode = 139 then some 1
  else none

/-- The supervision loop over the successive exit codes of the child: one
trace entry per spawn, ending at the first exit code that is not retried. -/
def rtcLoop : List Int → List (Int × Option Nat)
  | [] => []
  | c :: rest =>
    match rtcStep c with
    | some w => (c, some w) :: rtcLoop rest
    | none => [(c, none)]

/-! ## The backup retry task (`tasks.py`, `_backup_task`) -/

/-- The value the inner `for i, arg in enumerate(args[:])` of `_backup_task`
leaves in the loop variable `i` — the SAME variable as the outer retry
index: the index of the first "run" argument (the loop breaks there), else
the last index scanned; with empty `args` the body never runs and `i` keeps
the outer value. -/
def runArgIndex (args : List String) (outer_i : Nat) : Nat :=
  match args.findIdx? (fun a => a = "run") with
  | some j => j
  | none => if args.length = 0 then outer_i else args.length - 1

/-- Trace of one `_backup_task` run: backup subprocess invocations made,
the sleeps performed (in seconds, in order), `logger.warning` calls, and
whether an invocation succeeded. -/
structure BackupRun where
  attempts : Nat
  sleeps : List Nat
  logs : Nat
  succeeded : Bool
deriving Repr, DecidableEq

/-- The retry loop `for i in xrange(3)` of `_backup_task`, with `n` rounds
left, `i` the current outer index and `rc k` the exit code of the k-th
spawned backup subprocess: exit code 0 breaks out; otherwise the failure is
logged and the task sleeps `(60 * 2) ** (i + 1)` seconds — where `i` has
just been overwritten by the argument-rewriting inner loop. -/
def backupLoop (args : List String) (rc : Nat → Int) : Nat → Nat → BackupRun
  | 0, _ => ⟨0, [], 0, false⟩
  | n + 1, i =>
    if rc i = 0 then ⟨1, [], 0, true⟩
    else
      let rest := backupLoop args rc n (i + 1)
      ⟨rest.attempts + 1, (60 * 2) ^ (runArgIndex args i + 1) :: rest.sleeps,
        rest.logs + 1, rest.succeeded⟩

/-- `_backup_task`, given the process argv (`sys.argv`, in which the inner
loop looks for "run") and the exit codes of the successive backup
subprocess invocations. -/
def _backup_task (args : List String) (rc : Nat → Int) : BackupRun :=
  backupLoop args rc 3 0

/-! ## The backup scheduler shutdown trigger (`tasks.py`, `start_backup_scheduler`) -/

/-- A started recurring backup schedule: a `task.LoopingCall(_backup_task)`
on which `backup_task.start(24 * 60 * 60)` has run and that is still
pending. -/
structure BackupSchedule where
  running : Bool
deriving Repr, DecidableEq

/-- `getattr(obj, name, default)` over a listing of the boolean-valued
attributes of `obj`. -/
def getattrB (attrs : List (String × Bool)) (name : String) (default : Bool) :
    Bool :=
  match attrs.find? (fun p => p.1 = name) with
  | some p => p.2
  | none => default

/-- Modelled from the spec: the shutdown trigger registered by
`start_backup_scheduler` is `lambda: getattr(task, 'running', False) and
task.stop()`, in which `task` names the imported `twisted.internet.task`
MODULE (the cooperative scheduler collaborator of the spec), not the
`backup_task` LoopingCall; the module exposes classes and functions but no
boolean `running` attribute. -/
def twistedTaskModuleBoolAttrs : List (String × Bool) := []

/-- Effect of the registered `before shutdown` trigger on the started
schedules: `getattr(task, 'running', False)` yields the default `False`
(the module has no `running` attribute), the `and` short-circuits and
`task.stop()` is never evaluated, so no started schedule is stopped — and
even a truthy left operand would call `stop()` on the module, not on any
started `LoopingCall`. -/
def backupShutdownTrigger (started : List BackupSchedule) :
    List BackupSchedule :=
  if getattrB twistedTaskModuleBoolAttrs "running" false then started
  else started

/-! ### Association-list lemmas for the session dict -/

theorem lookupSession_eq_none_of_not_mem {m : SessionMap} {k : String}
    (h : k ∉ m.map Prod.fst) : lookupSession m k = none := by
  induction m with
  | nil => rfl
  | cons kv rest ih =>
    simp only [List.map_cons, List.mem_cons, not_or] at h
    simp only [lookupSession]
    rw [if_neg (fun he => h.1 he.symm)]
    exact ih h.2

theorem not_mem_keys_filter {m : SessionMap} {k : String}
    (p : String × SessionData → Bool) (h : k ∉ m.map Prod.fst) :
    k ∉ (m.filter p).map Prod.fst := by
  intro hmem
  apply h
  simp only [List.mem_map] at hmem ⊢
  obtain ⟨kv, hkv, rfl⟩ := hmem
  exact ⟨kv, (List.mem_filter.mp hkv).1, rfl⟩

/-- Looking a key up in a filtered dict: on duplicate-free keys, the result is
the original entry when it passes the filter, nothing otherwise. -/
theorem lookupSession_filter (p : String × SessionData → Bool) (m : SessionMap)
    (k : String) (h : (m.map Prod.fst).Nodup) :
    lookupSession (m.filter p) k =
      (lookupSession m k).bind (fun v => if p (k, v) then some v else none) := by
  induction m with
  | nil => rfl
  | cons kv rest ih =>
    simp only [List.map_cons, List.nodup_cons] at h
    rw [List.filter_cons]
    by_cases hk : kv.1 = k
    · subst hk
      cases hp : p kv with
      | true =>
        have hp2 : p (kv.1, kv.2) = true := by rwa [Prod.mk.eta]
        simp [lookupSession, hp2, hp]
      | false =>
        have hp2 : p (kv.1, kv.2) = false := by rwa [Prod.mk.eta]
        simp [lookupSession, hp2, hp,
          lookupSession_eq_none_of_not_mem (not_mem_keys_filter p h.1)]
    · cases hp : p kv with
      | true => simp [lookupSession, hk, hp, ih h.2]
      | false => simp [lookupSession, hk, hp, ih h.2]

theorem lookupSession_setSessionDate (m : SessionMap) (k : String) (now : Time) :
    lookupSession (setSessionDate m k now) k =
      (lookupSession m k).map (fun d => { d with date := now }) := by
  induction m with
  | nil => rfl
  | cons kv rest ih =>
    simp only [setSessionDate, List.map_cons] at ih ⊢
    by_cases hk : kv.1 = k
    · simp [lookupSession, hk]
    · simp [lookupSession, hk, ih]

/-! ### Characterisation of `_login_required` -/

/-- Step through `_login_required` on a present header: success is a live
entry of the in-memory (possibly GC-swept) dict. -/
theorem login_required_ok_iff_load (file : SessionMap) (lg : Option Time)
    (now : Time) (sid : String) (u : Nat) :
    (_login_required file lg now (some sid)).result = Except.ok u ↔
      ∃ d, lookupSession (getSessionLoad file lg now).1 sid = some d ∧
        now - d.date ≤ _expire_time ∧ u = d.user_id := by
  simp only [_login_required]
  cases hl : lookupSession (getSessionLoad file lg now).1 sid with
  | none => simp
  | some d =>
    simp only []
    by_cases hage : now - d.date > _expire_time
    · rw [if_pos hage]
      simp only [false_iff, not_exists, reduceCtorEq]
      rintro d2 ⟨hd2, hage2, _⟩
      injection hd2 with h2
      subst h2
      exact absurd hage2 (not_le.mpr hage)
    · rw [if_neg hage]
      simp only [Except.ok.injEq, Option.some.injEq]
      constructor
      · rintro rfl; exact ⟨d, rfl, not_lt.mp hage, rfl⟩
      · rintro ⟨d2, rfl, _, rfl⟩; rfl

/-- A live entry survives the load phase of `_get_session` untouched: the GC
sweep only ever drops expired entries (duplicate-free keys). -/
theorem lookup_getSessionLoad_live (file : SessionMap) (lg : Option Time)
    (now : Time) (sid : String) (d : SessionData)
    (hkeys : (file.map Prod.fst).Nodup) (hage : now - d.date ≤ _expire_time) :
    lookupSession (getSessionLoad file lg now).1 sid = some d ↔
      lookupSession file sid = some d := by
  simp only [getSessionLoad]
  by_cases hgc : gcDue lg now = true
  · rw [if_pos hgc]
    simp only [gcSessions]
    rw [lookupSession_filter _ _ _ hkeys]
    cases hl : lookupSession file sid with
    | none => simp
    | some d2 =>
      simp only [Option.some_bind, Option.some.injEq]
      by_cases h2 : now - d2.date ≤ _expire_time
      · simp [h2]
      · simp only [decide_eq_true_eq, if_neg h2, false_iff, reduceCtorEq]
        rintro rfl; exact h2 hage
  · rw [if_neg hgc]

/-- C1 reformulated over the file: on a request carrying session id `sid`,
`_login_required` resolves user `u` exactly when the persisted session file
maps `sid` to an entry of age at most `_expire_time` whose `user_id` is `u`. -/
theorem login_required_ok_iff (file : SessionMap) (lg : Option Time) (now : Time)
    (sid : String) (u : Nat) (hkeys : (file.map Prod.fst).Nodup) :
    (_login_required file lg now (some sid)).result = Except.ok u ↔
      ∃ d, lookupSession file sid = some d ∧ now - d.date ≤ _expire_time ∧
        u = d.user_id := by
  rw [login_required_ok_iff_load]
  constructor
  · rintro ⟨d, hl, hage, rfl⟩
    exact ⟨d, (lookup_getSessionLoad_live file lg now sid d hkeys hage).mp hl, hage, rfl⟩
  · rintro ⟨d, hl, hage, rfl⟩
    exact ⟨d, (lookup_getSessionLoad_live file lg now sid d hkeys hage).mpr hl, hage, rfl⟩

/-- On success, the persisted file holds the looked-up session with its
timestamp refreshed to `now`. -/
theorem login_required_ok_disk (file : SessionMap) (lg : Option Time)
    (now : Time) (sid : String) (u : Nat)
    (h : (_login_required file lg now (some sid)).result = Except.ok u) :
    lookupSession (_login_required file lg now (some sid)).disk sid =
      some ⟨now, u⟩ := by
  simp only [_login_required] at h ⊢
  cases hl : lookupSession (getSessionLoad file lg now).1 sid with
  | none => rw [hl] at h; simp at h
  | some d =>
    rw [hl] at h
    by_cases hage : now - d.date > _expire_time
    · simp only [if_pos hage] at h
      simp at h
    · simp only [if_neg hage] at h ⊢
      simp only [Except.ok.injEq] at h
      rw [lookupSession_setSessionDate, hl]
      simp [h]

/-! ### Claim theorems: session store -/

/-- C1: for every session id presented in the stoq-session request header,
the login-protected wrapper succeeds iff an entry for that id exists in the
persisted session store and now minus the entry timestamp is at most 24
hours; on success the persisted store holds that entry with its timestamp
set to now (saved before the wrapped view runs) and the resolved user is the
entry user; with a missing header, an unknown id, or an entry older than 24
hours it fails with a 401 authentication error. -/
theorem C1_login_validate_and_refresh (file : SessionMap) (lg : Option Time)
    (now : Time) (header : Option String)
    (hkeys : (file.map Prod.fst).Nodup) :
    ((∃ u, (_login_required file lg now header).result = Except.ok u) ↔
      ∃ sid d, header = some sid ∧ lookupSession file sid = some d ∧
        now - d.date ≤ _expire_time)
    ∧ (∀ sid u, header = some sid →
        (_login_required file lg now header).result = Except.ok u →
        (∃ d, lookupSession file sid = some d ∧ u = d.user_id) ∧
        lookupSession (_login_required file lg now header).disk sid =
          some ⟨now, u⟩)
    ∧ (header = none →
        (_login_required file lg now header).result =
          Except.error AuthError.noSessionId) := by
  refine ⟨?_, ?_, ?_⟩
  · cases header with
    | none => simp [_login_required]
    | some sid =>
      constructor
      · rintro ⟨u, hu⟩
        obtain ⟨d, hd, hage, _⟩ := (login_required_ok_iff file lg now sid u hkeys).mp hu
        exact ⟨sid, d, rfl, hd, hage⟩
      · rintro ⟨sid2, d, hsid, hd, hage⟩
        injection hsid with h2
        subst h2
        exact ⟨d.user_id, (login_required_ok_iff file lg now sid d.user_id hkeys).mpr
          ⟨d, hd, hage, rfl⟩⟩
  · rintro sid u rfl hu
    obtain ⟨d, hd, _, hid⟩ := (login_required_ok_iff file lg now sid u hkeys).mp hu
    exact ⟨⟨d, hd, hid⟩, login_required_ok_disk file lg now sid u hu⟩
  · rintro rfl
    rfl

/-- Witness for C1 at a concrete store: a live session authenticates. -/
theorem C1_witness :
    ∃ u, (_login_required [("abc", ⟨100, 7⟩)] (some 50) 200 (some "abc")).result =
      Except.ok u :=
  (C1_login_validate_and_refresh [("abc", ⟨100, 7⟩)] (some 50) 200 (some "abc")
      (by decide)).1.mpr ⟨"abc", ⟨100, 7⟩, rfl, rfl, by decide⟩

/-- C2: when the GC sweep of `_get_session` runs it keeps exactly the entries
of age at most `_expire_time` (24 hours) and deletes every strictly older
one; and the sweep is gated to fire only when the previous run lies more than
`_expire_time` in the past, hence at most once per expiry window. -/
theorem C2_gc_exact (now : Time) (m : SessionMap) (kv : String × SessionData)
    (t : Time) :
    (kv ∈ gcSessions now m ↔ kv ∈ m ∧ now - kv.2.date ≤ _expire_time)
    ∧ (gcDue (some t) now = true ↔ now - t > _expire_time) := by
  constructor
  · simp [gcSessions, List.mem_filter]
  · simp [gcDue]

/-- C10: whenever `_login_required` rejects a request (missing header,
unknown id or expired entry), the `abort` raised inside the `_get_session`
context manager skips the pickle save after the `yield`, so the on-disk
session file is exactly the file that was loaded; in particular a GC sweep
done in memory during that access is not persisted. -/
theorem C10_failed_auth_no_persist (file : SessionMap) (lg : Option Time)
    (now : Time) (header : Option String) (e : AuthError)
    (h : (_login_required file lg now header).result = Except.error e) :
    (_login_required file lg now header).disk = file := by
  cases header with
  | none => rfl
  | some sid =>
    simp only [_login_required] at h ⊢
    cases hl : lookupSession (getSessionLoad file lg now).1 sid with
    | none => rfl
    | some d =>
      rw [hl] at h
      by_cases hage : now - d.date > _expire_time
      · simp only [if_pos hage]
      · simp only [if_neg hage] at h
        simp at h

/-- Witness for C10: a request with an unknown id, against a store holding an
expired entry with GC due, is rejected and leaves the on-disk store (the
expired entry included) untouched. -/
theorem C10_witness :
    (_login_required [("a", ⟨0, 1⟩)] none 200000 (some "b")).disk =
      [("a", ⟨0, 1⟩)] :=
  C10_failed_auth_no_persist [("a", ⟨0, 1⟩)] none 200000 (some "b")
    AuthError.noSession (by rfl)

theorem putMany_streams (evs : List JValue) (st : EventStreamState) :
    (putMany st evs)._streams = st._streams.map (fun q => q ++ evs) := by
  induction evs generalizing st with
  | nil => simp [putMany]
  | cons e rest ih =>
    simp only [putMany, List.foldl_cons] at ih ⊢
    rw [ih (EventStream.put st e)]
    simp [EventStream.put, List.map_map, Function.comp_def, List.append_assoc]

/-! ### Claim theorems: event stream -/

/-- C3: in any execution where subscriber A subscribes, event `e` is
published, subscriber B subscribes, and event `f` is published, A's queue
holds the synthetic connection item then `e` then `f` in that order, and B's
queue holds the synthetic connection item then `f` only: every publish is
appended to every queue registered at publish time, in publish order, and to
no queue registered later. -/
theorem C3_broadcast_order (st0 : EventStreamState) (e f : JValue) :
    let s1 := (EventStream.get st0).1
    let iA := (EventStream.get st0).2
    let s2 := EventStream.put s1 e
    let s3 := (EventStream.get s2).1
    let iB := (EventStream.get s2).2
    let s4 := EventStream.put s3 f
    s4._streams[iA]? = some [initEvent, e, f] ∧
    s4._streams[iB]? = some [initEvent, f] := by
  simp only [EventStream.get, EventStream.put]
  constructor
  · rw [List.getElem?_map, List.getElem?_append_left (by simp), List.getElem?_map,
      List.getElem?_concat_length]
    rfl
  · rw [List.getElem?_map, List.getElem?_concat_length]
    rfl

/-- C9: for every newly opened subscription the first queued item is the
synthetic connection item, which is already the STRING `json.dumps({})`;
since `_loop` JSON-encodes every dequeued item again, the first wire frame
is the double-encoded JSON string literal `data: "{}"` (with the braces
inside a quoted string), not a JSON object with a type field, while every
later frame encodes each published event dict exactly once. -/
theorem C9_first_frame_double_encoded (st0 : EventStreamState) (evs : List JValue) :
    let sub := EventStream.get st0
    (putMany sub.1 evs)._streams[sub.2]? = some (initEvent :: evs) ∧
    streamFrames (initEvent :: evs) =
      "data: \"\x7b\x7d\"\n\n" :: evs.map sseFrame ∧
    initEvent = JValue.jstr "\x7b\x7d" ∧
    sseFrame initEvent ≠ sseFrame (JValue.jobj []) := by
  simp only [EventStream.get]
  refine ⟨?_, rfl, rfl, by decide⟩
  rw [putMany_streams]
  rw [List.getElem?_map, List.getElem?_concat_length]
  rfl

/-- C6: the poller publishes DRAWER_ALERT_OPEN exactly on a closed-to-open
transition, DRAWER_ALERT_CLOSE exactly on an open-to-closed transition, and
nothing when the sampled status equals the held state; on the sequence
closed, closed, open, open, closed it publishes exactly two events:
DRAWER_ALERT_OPEN after tick 3 and DRAWER_ALERT_CLOSE after tick 5. -/
theorem C6_drawer_edge_events (st s : Bool) :
    ((drawerStep st s).2 = some DrawerEvent.DRAWER_ALERT_OPEN ↔
      st = false ∧ s = true)
    ∧ ((drawerStep st s).2 = some DrawerEvent.DRAWER_ALERT_CLOSE ↔
      st = true ∧ s = false)
    ∧ (drawerStep st st).2 = none
    ∧ check_drawer_loop [false, false, true, true, false] =
        [none, none, some DrawerEvent.DRAWER_ALERT_OPEN, none,
          some DrawerEvent.DRAWER_ALERT_CLOSE] := by
  refine ⟨?_, ?_, ?_, ?_⟩ <;> cases st <;> cases s <;> decide

theorem foldl_or_eq (f : String → Bool) (b : Bool) (l : List String) :
    l.foldl (fun acc t => acc || f t) b = (b || l.any f) := by
  induction l generalizing b with
  | nil => simp
  | cons t rest ih => simp [ih, Bool.or_assoc]

/-- C7: one or more notifications naming watched tables within a single poll
window (mixed with any unwatched ones) produce exactly one
SERVER_UPDATE_DATA publish for that window, and a window whose notifications
all name unwatched tables publishes nothing. -/
theorem C7_coalesced_update (tables : List String) :
    ((∃ t ∈ tables, t ∈ watch_tables) →
      (postgresPollWindow false tables).2 = 1)
    ∧ ((∀ t ∈ tables, t ∉ watch_tables) →
      (postgresPollWindow false tables).2 = 0) := by
  constructor
  · intro h
    obtain ⟨t, ht, hw⟩ := h
    have hany : tables.any (fun t => watch_tables.contains t) = true := by
      rw [List.any_eq_true]
      exact ⟨t, ht, by simpa using hw⟩
    simp only [postgresPollWindow]
    rw [foldl_or_eq, Bool.false_or, hany]
    rfl
  · intro h
    have hany : tables.any (fun t => watch_tables.contains t) = false := by
      rw [List.any_eq_false]
      intro t ht
      simpa using h t ht
    simp only [postgresPollWindow]
    rw [foldl_or_eq, Bool.false_or, hany]
    rfl

/-- Witness for C7: a window with one watched and one unwatched notification
publishes once; a window with only an unwatched notification publishes
nothing. -/
theorem C7_witness :
    (postgresPollWindow false ["sellable", "till"]).2 = 1 ∧
    (postgresPollWindow false ["till"]).2 = 0 :=
  ⟨(C7_coalesced_update ["sellable", "till"]).1 ⟨"sellable", by decide, by decide⟩,
   (C7_coalesced_update ["till"]).2 (by decide)⟩

/-- C8: a child exit with code 10 is restarted after a 10-minute (600 s)
wait, code 139 after a 1-second wait, and any other exit code (0 included)
terminates the supervising loop with no restart. -/
theorem C8_rtc_exit_codes (c : Int) (rest : List Int) (hc10 : c ≠ 10)
    (hc139 : c ≠ 139) :
    rtcStep 10 = some 600 ∧ rtcStep 139 = some 1 ∧ rtcStep c = none ∧
    rtcLoop (c :: rest) = [(c, none)] ∧
    rtcLoop (10 :: rest) = (10, some 600) :: rtcLoop rest ∧
    rtcLoop (139 :: rest) = (139, some 1) :: rtcLoop rest := by
  have hstep : rtcStep c = none := by simp [rtcStep, hc10, hc139]
  refine ⟨rfl, rfl, hstep, ?_, rfl, rfl⟩
  simp [rtcLoop, hstep]

/-- Witness for C8: exit code 0 ends the loop with no restart. -/
theorem C8_witness : rtcStep 0 = none ∧ rtcLoop [0] = [(0, none)] :=
  ⟨(C8_rtc_exit_codes 0 [] (by decide) (by decide)).2.2.1,
   (C8_rtc_exit_codes 0 [] (by decide) (by decide)).2.2.2.1⟩

/-- Counterexample to C4 as stated: with argv `stoqserver run` and three
consecutive failures the task does make exactly 3 attempts, but the sleeps
are 14400 s after every failed attempt, the third included — the inner
argument loop reuses the variable `i`, so `(60 * 2) ** (i + 1)` is the
constant `120 ** 2` — not the strictly increasing 240, 480, 960 the claim
states. -/
theorem C4_counterexample :
    (_backup_task ["stoqserver", "run"] (fun _ => 1)).attempts = 3 ∧
    (_backup_task ["stoqserver", "run"] (fun _ => 1)).sleeps =
      [14400, 14400, 14400] ∧
    (_backup_task ["stoqserver", "run"] (fun _ => 1)).sleeps ≠
      [240, 480, 960] := by
  refine ⟨rfl, by decide, by decide⟩

/-- C4 amended: on three consecutive subprocess failures `_backup_task`
makes exactly 3 invocation attempts and logs each failure, no exception
reaching the scheduler (failure is reported through the exit code and the
loop just ends); after EACH failed attempt — the third included — it sleeps
the constant `(60 * 2) ^ (j + 1)` seconds, `j` being the index of "run" in
argv (the retry index is overwritten by the argument loop), rather than the
increasing 240, 480, 960 of the claim; on a first-attempt success it makes
one attempt and stops retrying immediately with no sleep and no log. -/
theorem C4_backup_retry (args : List String) (rc : Nat → Int) (j : Nat)
    (hrun : args.findIdx? (fun a => a = "run") = some j)
    (h0 : rc 0 ≠ 0) (h1 : rc 1 ≠ 0) (h2 : rc 2 ≠ 0) :
    _backup_task args rc =
      ⟨3, [(60 * 2) ^ (j + 1), (60 * 2) ^ (j + 1), (60 * 2) ^ (j + 1)], 3, false⟩
    ∧ ∀ rc2 : Nat → Int, rc2 0 = 0 → _backup_task args rc2 = ⟨1, [], 0, true⟩ := by
  constructor
  · simp [_backup_task, backupLoop, runArgIndex, hrun, h0, h1, h2]
  · intro rc2 hrc2
    simp [_backup_task, backupLoop, hrc2]

/-- Witness for C4 amended: three failures with argv `stoqserver run`. -/
theorem C4_witness :
    _backup_task ["stoqserver", "run"] (fun _ => 1) =
      ⟨3, [14400, 14400, 14400], 3, false⟩ :=
  (C4_backup_retry ["stoqserver", "run"] (fun _ => 1) 1 (by decide)
    (by decide) (by decide) (by decide)).1

/-- C5 fails on the code: a started, still-running recurring backup schedule
survives the shutdown trigger untouched — the trigger lambda consults
`getattr` on the `twisted.internet.task` module instead of the
`backup_task` variable, gets the `False` default and never calls `stop()` —
whereas the claim (and the evident intent of registering the trigger) is
that every pending schedule be cancelled on shutdown. -/
theorem C5_shutdown_cancels_nothing :
    backupShutdownTrigger [⟨true⟩] = [⟨true⟩] ∧
    ∀ started : List BackupSchedule, backupShutdownTrigger started = started :=
  ⟨rfl, fun _ => rfl⟩

end StoqServer
